import Mathlib

/-!
Shallow embedding of the myougiden search engine (src/myougiden.py).

The program is a read-only dictionary lookup tool over a SQLite store.
We embed its pure logic directly:

* `get_regex` — the process-wide regexp cache (`regexp_store`), modelled as
  explicit state passing over a `Store` (a map from pattern text to the
  compiled object).  Python flag bitmasks are `Nat` (`re.U = 32`,
  `re.I = 2`, the values CPython uses).
* `search_by` — the main search; the SQL execution
  (`SELECT ent_seq FROM entries NATURAL INNER JOIN <table>
  WHERE <table>.<field> <operator> ?`) is abstracted by a `SearchDb`
  oracle answering (table, field column, operator, transformed query)
  with a row list, since the storage engine itself is external.
  The query transformation (lines 105-119) and the operator choice
  (lines 105-108) are the functions `transform_query` and `operator_for`,
  exactly as in the source.  A field outside kanji/reading/sense leaves
  the Python local `table` unassigned, so line 127 raises
  `UnboundLocalError`; fallible code is `Except PyError`.
* `guess_search` — tries conditions in order, returning the first
  non-empty result; the Python function falls off its end when every
  search is empty, i.e. it returns `None`, modelled as `Option`.
* `fetch_entry` — three `SELECT ... WHERE ent_seq = ?` reads, modelled
  over row-list tables where `WHERE ent_seq = ?` is an order-preserving
  filter (SQLite returns plain-table rows in rowid, i.e. insertion,
  order).
* the `__main__` case auto-detection (lines 197-199), `re.search("[A-Z]",
  query)` modelled as an ASCII uppercase scan (`contains_upper`).
-/

namespace Myougiden

/-- CPython value of the flag `re.U` (`re.UNICODE`). -/
def re_U : Nat := 32

/-- CPython value of the flag `re.I` (`re.IGNORECASE`). -/
def re_I : Nat := 2

/-- Model of a compiled regular-expression object as produced by
`re.compile(pattern, flags)`: the pattern text and the flag bitmask it was
compiled with.  Pattern-matching semantics of the `re` engine are outside
the program. -/
structure Compiled where
  pattern : String
  flags : Nat
  deriving DecidableEq, Repr

/-- Model of the module-level dict `regexp_store`: pattern text to the
compiled object stored for it. -/
def Store : Type := String → Option Compiled

/-- Embedding of `get_regex(pattern, flags)` (lines 17-33): return the
stored compiled object when the pattern text was seen before (the flags
argument is then ignored — flags are not part of the hash), otherwise
compile with `re.U | flags` and store the result.  State passing makes the
mutation of `regexp_store` explicit: the second component is the store
after the call. -/
def get_regex (store : Store) (pattern : String) (flags : Nat) : Compiled × Store :=
  match store pattern with
  | some comp => (comp, store)
  | none =>
      let comp : Compiled := ⟨pattern, re_U ||| flags⟩
      (comp, fun p => if p = pattern then some comp else store p)

/-- Embedding of the SQL hook `regexp_sensitive(pattern, field)`
(lines 36-39): compile via the cache with flags `0`, then search the field.
The `re` engine's `search` is abstracted as the `reSearch` parameter. -/
def regexp_sensitive (reSearch : Compiled → String → Bool) (store : Store)
    (pattern field : String) : Bool × Store :=
  let rs := get_regex store pattern 0
  (reSearch rs.1 field, rs.2)

/-- Embedding of the SQL hook `regexp_insensitive(pattern, field)`
(lines 41-44): compile via the cache with flags `re.I`, then search. -/
def regexp_insensitive (reSearch : Compiled → String → Bool) (store : Store)
    (pattern field : String) : Bool × Store :=
  let rs := get_regex store pattern re_I
  (reSearch rs.1 field, rs.2)

/-- Errors the embedded code can raise.  `unboundLocalError` is what
Python raises at line 127 when `search_by` was given a field outside
kanji/reading/sense: the `if/elif` chain of lines 98-103 has no `else`,
the local `table` stays unassigned, and referencing it in the `%`
formatting raises `UnboundLocalError`.  `unknownField` is modelled from
the spec (section 7, "UnknownField"): an explicitly named unknown-field
error; the source never raises it — it exists here only to compare the
code's behaviour with the spec's words. -/
inductive PyError where
  | unboundLocalError
  | unknownField
  deriving DecidableEq, Repr

/-- Table resolution of lines 98-103: the `if/elif` chain assigning
`table`; `none` models the fall-through that leaves `table` unassigned. -/
def tableFor (field : String) : Option String :=
  if field = "kanji" then some "kanjis"
  else if field = "reading" then some "readings"
  else if field = "sense" then some "senses"
  else none

/-- Operator choice of lines 105-108: `REGEXP` in regex mode, `LIKE`
otherwise. -/
def operator_for (regexp : Bool) : String :=
  if regexp then "REGEXP" else "LIKE"

/-- Query transformation of lines 110-119, exactly as written: in regex
mode a whole-word query gets `\b` anchors, else a non-partial query gets
`^`/`$` anchors; in LIKE mode `if word: pass` (the TODO) comes first, so a
whole-word query is left unchanged even when partial, and otherwise a
partial query is wrapped in `%` wildcards. -/
def transform_query (query : String) (part word regexp : Bool) : String :=
  if regexp then
    if word then "\\b" ++ query ++ "\\b"
    else if !part then "^" ++ query ++ "$"
    else query
  else
    if word then query
    else if part then "%" ++ query ++ "%"
    else query

/-- Abstraction of the open cursor: answers the query of lines 121-128,
parameterised by the interpolated table name, field column, operator and
the bound transformed query, returning the `ent_seq` rows in
storage-returned order. -/
structure SearchDb where
  run : String → String → String → String → List Int

/-- Embedding of `search_by(cur, field, query, partial, word, regexp,
case_sensitive)` (lines 91-133).  `case_sensitive` is accepted (it arrives
via `**kwargs` from the CLI) but unused in the body, as in the source —
case sensitivity is a connection-level setting chosen in `opendb`.  An
unresolved field raises `UnboundLocalError` (see `PyError`); otherwise the
oracle is queried with the chosen table, field column, operator and
transformed query, and the resulting row list is returned. -/
def search_by (db : SearchDb) (field query : String)
    (part word regexp case_sensitive : Bool) : Except PyError (List Int) :=
  match tableFor field with
  | none => .error .unboundLocalError
  | some table =>
      .ok (db.run table field (operator_for regexp) (transform_query query part word regexp))

/-- One entry of the `conditions` list passed to `guess_search`: a dict of
keyword arguments for `search_by`, mandatory arguments included. -/
structure Cond where
  field : String
  query : String
  part : Bool := false
  word : Bool := false
  regexp : Bool := false
  case_sensitive : Bool := false

/-- The call `search_by(cur, **condition)` of line 148: unpack a condition
dict into a `search_by` call. -/
def apply_cond (db : SearchDb) (c : Cond) : Except PyError (List Int) :=
  search_by db c.field c.query c.part c.word c.regexp c.case_sensitive

/-- Embedding of `guess_search(cur, conditions)` (lines 135-150): try each
condition in order and return the first result with `len(res) > 0`.  When
the loop exhausts the list the Python function falls off its end and
implicitly returns `None`: that is the `.ok none` case.  An exception
raised by `search_by` propagates. -/
def guess_search (db : SearchDb) : List Cond → Except PyError (Option (List Int))
  | [] => .ok none
  | c :: rest =>
      match apply_cond db c with
      | .error e => .error e
      | .ok res => if res.length > 0 then .ok (some res) else guess_search db rest

/-- The three child tables of the store, each a list of
(`ent_seq`, value) rows in insertion order. -/
structure Database where
  kanjis : List (Int × String)
  readings : List (Int × String)
  senses : List (Int × String)

/-- One `SELECT <col> FROM <table> WHERE ent_seq = ?` of lines 76-86: the
rows whose `ent_seq` is equal, values only, in stored order (the Python
loop appends each fetched row in order). -/
def select_rows (table : List (Int × String)) (ent_seq : Int) : List String :=
  (table.filter fun r => r.1 == ent_seq).map fun r => r.2

/-- Embedding of `fetch_entry(cur, ent_seq)` (lines 69-88): the tuple of
lists (kanjis, readings, senses) for the entry, each built by its own
select. -/
def fetch_entry (db : Database) (ent_seq : Int) :
    List String × List String × List String :=
  (select_rows db.kanjis ent_seq, select_rows db.readings ent_seq,
    select_rows db.senses ent_seq)

/-- Embedding of `re.search("[A-Z]", query)` at line 198 viewed as a
boolean: the pattern `[A-Z]` hits exactly the ASCII uppercase letters
(code points 65-90), so the search succeeds iff some character of the
query is in that range. -/
def contains_upper (s : String) : Bool :=
  s.data.any fun c => 65 ≤ c.toNat && c.toNat ≤ 90

/-- Embedding of the case auto-detection at lines 197-199: when
`--case-sensitive` was not given, turn it on exactly when the query has an
ASCII uppercase character; an explicitly set flag is left alone. -/
def resolve_case_sensitive (case_sensitive : Bool) (query : String) : Bool :=
  if !case_sensitive then
    if contains_upper query then true else case_sensitive
  else case_sensitive

/-- Example oracle answering every query with no rows. -/
def empty_db : SearchDb := ⟨fun _ _ _ _ => []⟩

/-- Example oracle for the guess scenario of the spec: kanji search finds
nothing, reading search finds [5, 9], sense search finds [1]. -/
def guess_db : SearchDb :=
  ⟨fun table _ _ _ =>
    if table = "kanjis" then []
    else if table = "readings" then [5, 9]
    else if table = "senses" then [1]
    else []⟩

/-- Kanji-field condition, as built by `__main__` lines 210-211. -/
def cond_kanji : Cond := { field := "kanji", query := "x" }

/-- Reading-field condition, as built by `__main__` lines 212-213. -/
def cond_reading : Cond := { field := "reading", query := "x" }

/-- Sense-field condition, as built by `__main__` lines 214-215. -/
def cond_sense : Cond := { field := "sense", query := "x" }

/-- The empty regexp store (a fresh process). -/
def store0 : Store := fun _ => none

/-- The store after compiling "abc" case-sensitively (flags 0) in a fresh
process. -/
def store_abc : Store := (get_regex store0 "abc" 0).2

/-- Example store with one entry, id 1: written form 日本語, reading
にほんご, gloss "Japanese language". -/
def jdb : Database :=
  ⟨[(1, "日本語")], [(1, "にほんご")], [(1, "Japanese language")]⟩

/-- Claim C1: `guess_search` invokes `search_by` on each condition in the
given order and returns the result of the first invocation whose result
list is non-empty, preserving that list's order; later conditions are
never evaluated — the result does not depend on `post` at all, which may
even contain conditions that would raise. -/
theorem guess_search_first_nonempty (db : SearchDb) (pre : List Cond)
    (c : Cond) (post : List Cond) (res : List Int)
    (hpre : ∀ c' ∈ pre, apply_cond db c' = .ok [])
    (hc : apply_cond db c = .ok res) (hne : res ≠ []) :
    guess_search db (pre ++ c :: post) = .ok (some res) := by
  induction pre with
  | nil =>
      have hlen : res.length > 0 := List.length_pos.mpr hne
      simp only [List.nil_append, guess_search, hc, if_pos hlen]
  | cons a t ih =>
      have ha : apply_cond db a = .ok [] := hpre a (List.mem_cons_self a t)
      simp only [List.cons_append, guess_search, ha, List.length_nil,
        Nat.lt_irrefl, if_false]
      exact ih fun c' hc' => hpre c' (List.mem_cons_of_mem a hc')

/-- Claim C1 witness: with kanji search empty, reading search [5, 9] and
sense search [1], the result is exactly [5, 9]. -/
theorem guess_search_first_nonempty_witness :
    guess_search guess_db ([cond_kanji] ++ cond_reading :: [cond_sense]) =
      .ok (some [5, 9]) :=
  guess_search_first_nonempty guess_db [cond_kanji] cond_reading [cond_sense]
    [5, 9]
    (fun c' hc' => by
      have h : c' = cond_kanji := by simpa using hc'
      subst h; rfl)
    rfl (by simp)

/-- Claim C2: when every search yields an empty result list, the
`guess_search` loop exhausts the conditions and the function falls off its
end, i.e. it returns Python's `None` (`.ok none`) — not the empty list the
spec describes.  The caller at line 219 then iterates the return value, so
the program raises `TypeError` on zero results; the spec's empty-result
contract is the evident intent and the implicit `None` return a slip. -/
theorem guess_search_exhausted_returns_none :
    guess_search empty_db [cond_kanji, cond_reading, cond_sense] = .ok none ∧
      (Except.ok none : Except PyError (Option (List Int))) ≠ .ok (some []) :=
  ⟨rfl, by simp⟩

/-- Claim C3 counterexample: for the unknown field "foo", `search_by`
raises `UnboundLocalError` (the unassigned local `table` is referenced at
line 127), which is not the explicitly named `UnknownField` error the
claim asserts. -/
theorem search_by_unknown_field_counterexample :
    search_by empty_db "foo" "q" false false false false =
        .error .unboundLocalError ∧
      search_by empty_db "foo" "q" false false false false ≠
        .error .unknownField :=
  ⟨rfl, by simp [search_by, tableFor]⟩

/-- Claim C3 amended: for every field value outside kanji/reading/sense,
`search_by` raises an error — Python's `UnboundLocalError` from the
unassigned `table` local — so it never silently matches zero rows and
never falls through silently; but the error is not an explicitly named
UnknownField error. -/
theorem search_by_unknown_field_errors (db : SearchDb) (field query : String)
    (part word regexp cs : Bool)
    (h : field ≠ "kanji" ∧ field ≠ "reading" ∧ field ≠ "sense") :
    search_by db field query part word regexp cs = .error .unboundLocalError := by
  unfold search_by tableFor
  rw [if_neg h.1, if_neg h.2.1, if_neg h.2.2]

/-- Claim C3 amended, witness at the unknown field "foo". -/
theorem search_by_unknown_field_errors_witness :
    search_by empty_db "foo" "zzz" true true true true =
      .error .unboundLocalError :=
  search_by_unknown_field_errors empty_db "foo" "zzz" true true true true
    ⟨by decide, by decide, by decide⟩

/-- Claim C4: with partial=false, useRegex=true, wholeWord=false, the
query built by `search_by` is the full-string anchored `^q$` and the
operator is the regex operator `REGEXP`, for every resolvable field and
every query (the transformation never looks at the field). -/
theorem search_by_regex_full_anchor (db : SearchDb) (field table q : String)
    (cs : Bool) (h : tableFor field = some table) :
    transform_query q false false true = "^" ++ q ++ "$" ∧
      search_by db field q false false true cs =
        .ok (db.run table field "REGEXP" ("^" ++ q ++ "$")) := by
  refine ⟨rfl, ?_⟩
  unfold search_by
  rw [h]
  rfl

/-- Claim C4 witness at field kanji, query "abc". -/
theorem search_by_regex_full_anchor_witness :
    transform_query "abc" false false true = "^" ++ "abc" ++ "$" ∧
      search_by empty_db "kanji" "abc" false false true false =
        .ok (empty_db.run "kanjis" "kanji" "REGEXP" ("^" ++ "abc" ++ "$")) :=
  search_by_regex_full_anchor empty_db "kanji" "kanjis" "abc" false rfl

/-- Claim C5: with useRegex=true and wholeWord=true, the query built by
`search_by` is `\b` + q + `\b` (word-boundary anchors on both sides)
regardless of the partial flag. -/
theorem regex_whole_word_anchor (q : String) (part : Bool) :
    transform_query q part true true = "\\b" ++ q ++ "\\b" := rfl

/-- Claim C6 counterexample: with useRegex=false, wholeWord=true and
partial=true, the query "abc" is left unchanged — the `if word: pass`
branch at line 116-117 shadows the `elif partial` wrapping — so it is not
wrapped in `%` wildcards as the claim requires for partial=true, and the
word flag does have an effect (it suppresses the wrapping). -/
theorem like_word_defeats_wrapping_counterexample :
    transform_query "abc" true true false = "abc" ∧
      transform_query "abc" true true false ≠ "%" ++ "abc" ++ "%" ∧
      transform_query "abc" true false false = "%" ++ "abc" ++ "%" :=
  ⟨rfl, by decide, rfl⟩

/-- Claim C6 amended: with useRegex=false the operator is the engine-native
LIKE; when wholeWord=false and partial=true the query is wrapped in `%`
wildcards on both sides; when wholeWord=true the query is always left
unchanged, even when partial=true — the word flag adds no word-boundary
semantics but does suppress the partial wrapping. -/
theorem like_mode_transform (q : String) (part word : Bool) :
    operator_for false = "LIKE" ∧
      transform_query q part word false =
        (if word then q else if part then "%" ++ q ++ "%" else q) := by
  refine ⟨rfl, ?_⟩
  cases word <;> cases part <;> rfl

/-- Claim C7: once a pattern text is stored, every later `get_regex` call
with the same pattern text returns the stored compiled object unchanged,
whatever flags the later call passes, and the store is not modified — the
cache is keyed only by pattern text. -/
theorem get_regex_cache_ignores_flags (store : Store) (p : String) (f : Nat)
    (c : Compiled) (h : store p = some c) :
    get_regex store p f = (c, store) := by
  unfold get_regex
  rw [h]

/-- Claim C7 witness: compiling "abc" case-sensitively (flags 0) and then
"abc" case-insensitively (flags `re.I`) returns the identical compiled
object, whose flags are the ones of the first compilation. -/
theorem get_regex_cache_ignores_flags_witness :
    store_abc "abc" = some ⟨"abc", re_U ||| 0⟩ ∧
      get_regex store_abc "abc" re_I = (⟨"abc", re_U ||| 0⟩, store_abc) :=
  ⟨rfl, get_regex_cache_ignores_flags store_abc "abc" re_I ⟨"abc", re_U ||| 0⟩ rfl⟩

/-- Claim C8: when the case-sensitive flag was not explicitly set, the
resolved mode is case-sensitive exactly when the query contains an ASCII
uppercase character ("Tokyo" enables it, "tokyo" does not), and an
explicitly set flag is never downgraded by the auto-detection. -/
theorem case_autodetect (q : String) :
    resolve_case_sensitive false q = contains_upper q ∧
      resolve_case_sensitive true q = true ∧
      resolve_case_sensitive false "Tokyo" = true ∧
      resolve_case_sensitive false "tokyo" = false := by
  refine ⟨?_, rfl, rfl, rfl⟩
  unfold resolve_case_sensitive
  cases h : contains_upper q <;> simp [h]

/-- Claim C9: for every entry id whose store rows are exactly written form
日本語, reading にほんご and gloss "Japanese language", `fetch_entry`
returns exactly those three sequences, each of length 1, in insertion
order. -/
theorem fetch_entry_round_trip (db : Database) (n : Int)
    (hk : db.kanjis.filter (fun r => r.1 == n) = [(n, "日本語")])
    (hr : db.readings.filter (fun r => r.1 == n) = [(n, "にほんご")])
    (hs : db.senses.filter (fun r => r.1 == n) = [(n, "Japanese language")]) :
    fetch_entry db n = (["日本語"], ["にほんご"], ["Japanese language"]) := by
  unfold fetch_entry select_rows
  rw [hk, hr, hs]
  rfl

/-- Claim C9 witness at the one-entry store `jdb`, id 1. -/
theorem fetch_entry_round_trip_witness :
    fetch_entry jdb 1 = (["日本語"], ["にほんご"], ["Japanese language"]) :=
  fetch_entry_round_trip jdb 1 rfl rfl rfl

/-- Claim C10: when a pattern is first compiled, the stored/returned
compiled object carries `re.U ||| flags`, so the Unicode bit (bit 5,
value 32) is set whatever flags were requested — including flags 0, the
case-sensitive hook's request. -/
theorem get_regex_unicode_flag (store : Store) (p : String) (f : Nat)
    (h : store p = none) :
    (get_regex store p f).1.flags = re_U ||| f ∧
      ((get_regex store p f).1.flags).testBit 5 = true := by
  unfold get_regex
  rw [h]
  refine ⟨rfl, ?_⟩
  simp only [re_U, Nat.testBit_lor]
  simp [show Nat.testBit 32 5 = true by decide]

/-- Claim C10 witness: first compilation of "abc" in a fresh store with
flags 0 (the case-sensitive path) yields flags `re.U ||| 0` with the
Unicode bit set. -/
theorem get_regex_unicode_flag_witness :
    (get_regex store0 "abc" 0).1.flags = re_U ||| 0 ∧
      ((get_regex store0 "abc" 0).1.flags).testBit 5 = true :=
  get_regex_unicode_flag store0 "abc" 0 rfl

end Myougiden
